import Mathlib

/-!
Shallow embedding of the camera-relative spatial measurement module of the
Level-up-Estimator repository (the `ARMeasurement` component and the
`addRoom` rectangle back-solve of the estimate builder), together with
theorems checking the natural-language specification against it.
-/

open scoped Classical

noncomputable section

namespace LevelUp

/-- A 2-D pixel point, as in the `Point` interface of the source. -/
structure Point where
  x : ℝ
  y : ℝ

/-- Default point used to totalise list indexing (the source never indexes
out of range on the paths modelled here). -/
def origin : Point := ⟨0, 0⟩

instance : Inhabited Point := ⟨origin⟩

/-- Source function `calculatePixelDistance`: Euclidean distance
`Math.sqrt(dx*dx + dy*dy)`. -/
def calculatePixelDistance (p1 p2 : Point) : ℝ :=
  Real.sqrt ((p1.x - p2.x) * (p1.x - p2.x) + (p1.y - p2.y) * (p1.y - p2.y))

/-- The reactive state of the `ARMeasurement` component that the capture,
undo and calibration handlers read and write. -/
structure ARState where
  points : List Point
  isClosed : Bool
  isCalibrating : Bool
  calibrationPoints : List Point
  pixelsPerFoot : ℝ
  showCalibrationModal : Bool

/-- Source handler `handleCapturePoint`, as a function of the component
state and the target point (the viewport center).  In calibration mode the
target is appended to the reference points and the modal is shown once two
points exist; in closed state the handler returns early; otherwise the
polygon auto-closes when at least 3 vertices exist and the target is within
30 pixels of the first vertex (`prev[0]`), and the target is appended
otherwise. -/
def handleCapturePoint (s : ARState) (target : Point) : ARState :=
  if s.isCalibrating then
    let newPts := s.calibrationPoints ++ [target]
    { s with calibrationPoints := newPts,
             showCalibrationModal :=
               if newPts.length = 2 then true else s.showCalibrationModal }
  else if s.isClosed then s
  else if 3 ≤ s.points.length ∧ calculatePixelDistance target s.points.headI < 30 then
    { s with isClosed := true }
  else
    { s with points := s.points ++ [target] }

/-- Source handler `handleFinishCalibration`, with the user-typed real
distance as a parameter.  The source unconditionally evaluates
`calculatePixelDistance(calibrationPoints[0], calibrationPoints[1])`
before its guard; with fewer than two reference points an argument is
`undefined` and the `.x` field access inside `calculatePixelDistance`
throws a `TypeError`, modelled here as `none`.  With at least two
reference points the call returns normally (`some`): the guard
`distFt > 0 && distPx > 0` selects between the state update and a no-op. -/
def handleFinishCalibration (s : ARState) (distFt : ℝ) : Option ARState :=
  match s.calibrationPoints with
  | p0 :: p1 :: _ =>
      if 0 < distFt ∧ 0 < calculatePixelDistance p0 p1 then
        some { s with pixelsPerFoot := calculatePixelDistance p0 p1 / distFt,
                      isCalibrating := false,
                      calibrationPoints := [],
                      showCalibrationModal := false,
                      points := [],
                      isClosed := false }
      else some s
  | _ => none

/-- Source handler `handleUndo`: reopen a closed polygon, otherwise drop
the last vertex (`prev.slice(0, -1)`). -/
def handleUndo (s : ARState) : ARState :=
  if s.isClosed then { s with isClosed := false }
  else { s with points := s.points.dropLast }

/-- The calibration toggle button of the source
(`onClick={() => setIsCalibrating(!isCalibrating)}`). -/
def toggleCalibration (s : ARState) : ARState :=
  { s with isCalibrating := !s.isCalibrating }

/-- The signed shoelace sum computed by the area loop of `stats`:
`Σ (xi·yj − xj·yi)` with `j = (i+1) mod length`. -/
def shoelaceSum (pts : List Point) : ℝ :=
  ∑ i in Finset.range pts.length,
    ((pts.getD i origin).x * (pts.getD ((i + 1) % pts.length) origin).y
      - (pts.getD ((i + 1) % pts.length) origin).x * (pts.getD i origin).y)

/-- The `stats` memo of the source: `(areaFt, perimeterFt)` computed from
the vertex list, the closed flag, the viewport center and the scale
`pixelsPerFoot`.  It returns `(0, 0)` outright when fewer than 2 vertices
exist; otherwise the perimeter loop runs to `length` (closed) or
`length - 1` (open) with the live edge from the last vertex to the center
added when open, and the area is the absolute shoelace sum over
`closed ? points : points ++ [center]` halved, zero below 3 points. -/
def stats (points : List Point) (isClosed : Bool) (center : Point)
    (pixelsPerFoot : ℝ) : ℝ × ℝ :=
  if points.length < 2 then (0, 0)
  else
    let perimeterPx :=
      (∑ i in Finset.range (if isClosed then points.length else points.length - 1),
        calculatePixelDistance (points.getD i origin)
          (points.getD ((i + 1) % points.length) origin))
      + (if isClosed = false ∧ 0 < points.length
         then calculatePixelDistance (points.getD (points.length - 1) origin) center
         else 0)
    let polygonPoints := if isClosed then points else points ++ [center]
    let areaPx :=
      if 3 ≤ polygonPoints.length then |shoelaceSum polygonPoints| / 2 else 0
    (areaPx / (pixelsPerFoot * pixelsPerFoot), perimeterPx / pixelsPerFoot)

/-- Modelled from the spec: the effective polygon for area — the vertex
sequence itself when closed, the vertex sequence with the center appended
when open. -/
def effectivePolygon (points : List Point) (closed : Bool) (center : Point) :
    List Point :=
  if closed then points else points ++ [center]

/-- Modelled from the spec: pixel area as the absolute shoelace sum over
the effective polygon, halved, and zero when the effective polygon has
fewer than 3 points. -/
def specAreaPx (points : List Point) (closed : Bool) (center : Point) : ℝ :=
  if 3 ≤ (effectivePolygon points closed center).length
  then |shoelaceSum (effectivePolygon points closed center)| / 2
  else 0

/-- Modelled from the spec: pixel perimeter as the cyclic sum of edge
lengths when closed, and when open the open-chain sum plus — whenever at
least one vertex exists — the live edge from the last vertex to the
center. -/
def specPerimeterPx (points : List Point) (closed : Bool) (center : Point) : ℝ :=
  if closed then
    ∑ i in Finset.range points.length,
      calculatePixelDistance (points.getD i origin)
        (points.getD ((i + 1) % points.length) origin)
  else
    (∑ i in Finset.range (points.length - 1),
      calculatePixelDistance (points.getD i origin) (points.getD (i + 1) origin))
    + (if 0 < points.length
       then calculatePixelDistance (points.getD (points.length - 1) origin) center
       else 0)

/-- The rectangle dimension back-solve of `addRoom` in the estimate
builder: semi-perimeter, discriminant, the two roots when the discriminant
is non-negative (larger as length, smaller as width), square fallback
otherwise.  Returns `(effectiveLength, effectiveWidth)`. -/
def solveRectDims (customArea customPerimeter : ℝ) : ℝ × ℝ :=
  let semiPerimeter := customPerimeter / 2
  let discriminant := semiPerimeter ^ 2 - 4 * customArea
  if 0 ≤ discriminant then
    let w1 := (semiPerimeter + Real.sqrt discriminant) / 2
    let w2 := (semiPerimeter - Real.sqrt discriminant) / 2
    (max w1 w2, min w1 w2)
  else
    (Real.sqrt customArea, Real.sqrt customArea)

/-- State of the stability detector: ring progress (0–100), the cooldown
flag, the last-motion timestamp and a counter of capture triggers fired. -/
structure ScanState where
  scanProgress : ℕ
  cooldown : Bool
  lastMotion : ℤ
  captures : ℕ
  deriving DecidableEq

/-- One tick of the 50-unit progress interval of the source: do nothing in
cooldown; otherwise, when more than 400 units have elapsed since the last
motion, add 8 to the progress, and on reaching 100 hold at 100, fire the
capture trigger and enter cooldown. -/
def scanTick (now : ℤ) (s : ScanState) : ScanState :=
  if s.cooldown then s
  else if 400 < now - s.lastMotion then
    if 100 ≤ s.scanProgress + 8 then
      { scanProgress := 100, cooldown := true, lastMotion := s.lastMotion,
        captures := s.captures + 1 }
    else { s with scanProgress := s.scanProgress + 8 }
  else s

/-- Source handler `handleMotion`: a sample of magnitude above 0.8
records the motion timestamp and resets the progress. -/
def handleMotion (now : ℤ) (magnitude : ℚ) (s : ScanState) : ScanState :=
  if 4 / 5 < magnitude then { s with lastMotion := now, scanProgress := 0 }
  else s

/-- The delayed cooldown reset the source schedules 1500 units after a
trigger: clear the cooldown flag, reset the progress and the stability
timer. -/
def cooldownReset (now : ℤ) (s : ScanState) : ScanState :=
  { s with cooldown := false, scanProgress := 0, lastMotion := now }

/-- The scenario trace of the stability-detector claim: a motion sample of
magnitude 0.9 at time `T`, followed by ticks at `T + 50`, `T + 100`, …
with no further motion (and no cooldown reset falling inside the examined
window). -/
def scanTrace (T : ℤ) (s₀ : ScanState) : ℕ → ScanState
  | 0 => handleMotion T (9 / 10) s₀
  | k + 1 => scanTick (T + 50 * (k + 1)) (scanTrace T s₀ k)

/-- Auxiliary: the distance of a point to itself is zero. -/
theorem calculatePixelDistance_self (p : Point) : calculatePixelDistance p p = 0 := by
  simp [calculatePixelDistance]

/-- C1: in `Measuring-Open` (not calibrating, not closed), `handleCapturePoint`
closes the polygon exactly when at least 3 vertices exist and the target is
within 30 pixels of the first vertex — in that case `isClosed` becomes true
and the vertex sequence is unchanged; in every other case the target is
appended as the new last vertex and the state remains open. -/
theorem capture_point_open_spec (s : ARState) (target : Point)
    (hcal : s.isCalibrating = false) (hopen : s.isClosed = false) :
    (3 ≤ s.points.length ∧ calculatePixelDistance target s.points.headI < 30 →
      handleCapturePoint s target = { s with isClosed := true }) ∧
    (¬ (3 ≤ s.points.length ∧ calculatePixelDistance target s.points.headI < 30) →
      handleCapturePoint s target = { s with points := s.points ++ [target],
                                             isClosed := false }) := by
  constructor
  · intro h
    simp [handleCapturePoint, hcal, hopen, h]
  · intro h
    simp [handleCapturePoint, hcal, hopen, h]

/-- Witness for C1 at a concrete state: three vertices, target within 30px of
the first vertex — the polygon closes and the vertices stay unchanged. -/
theorem capture_point_open_spec_witness :
    handleCapturePoint ⟨[⟨0, 0⟩, ⟨10, 0⟩, ⟨10, 10⟩], false, false, [], 35, false⟩ ⟨1, 1⟩
      = ⟨[⟨0, 0⟩, ⟨10, 0⟩, ⟨10, 10⟩], true, false, [], 35, false⟩ := by
  have hd : calculatePixelDistance ⟨1, 1⟩
      (([⟨0, 0⟩, ⟨10, 0⟩, ⟨10, 10⟩] : List Point).headI) < 30 := by
    show Real.sqrt _ < 30
    rw [Real.sqrt_lt' (by norm_num)]
    norm_num [origin]
  exact (capture_point_open_spec
      ⟨[⟨0, 0⟩, ⟨10, 0⟩, ⟨10, 10⟩], false, false, [], 35, false⟩ ⟨1, 1⟩ rfl rfl).1
    ⟨by norm_num, hd⟩

/-- C2: the first component of `stats` (the area in real units) is exactly the
spec's pixel area — the absolute shoelace sum over the effective polygon,
halved, zero below 3 effective points — divided by the squared scale. -/
theorem stats_area_spec (points : List Point) (closed : Bool) (center : Point)
    (ppf : ℝ) :
    (stats points closed center ppf).1 = specAreaPx points closed center / (ppf * ppf) := by
  by_cases h : points.length < 2
  · have hz : specAreaPx points closed center = 0 := by
      have hlen : (effectivePolygon points closed center).length ≤ points.length + 1 := by
        cases closed <;> simp [effectivePolygon]
      have h3 : ¬ 3 ≤ (effectivePolygon points closed center).length := by omega
      simp [specAreaPx, h3]
    simp [stats, h, hz]
  · simp only [stats, h, if_false, specAreaPx, effectivePolygon]

/-- C10: once the polygon is closed, `stats` does not depend on the reticle /
viewport center at all — any two center positions give equal results, so the
delivered measurement is unaffected by where the camera is aimed. -/
theorem stats_closed_center_independent (points : List Point) (ppf : ℝ)
    (c₁ c₂ : Point) :
    stats points true c₁ ppf = stats points true c₂ ppf := by
  simp [stats]

/-- Counterexample to C7 as stated: toggling calibration mode on does not
clear a leftover reference point. -/
theorem toggle_calibration_counterexample :
    (toggleCalibration ⟨[], false, false, [⟨1, 2⟩], 35, false⟩).isCalibrating = true ∧
    (toggleCalibration ⟨[], false, false, [⟨1, 2⟩], 35, false⟩).calibrationPoints ≠ [] := by
  constructor
  · rfl
  · simp [toggleCalibration]

/-- C7 amended: the calibration toggle only flips the mode flag and leaves the
reference points untouched; reference points left over from an earlier
calibration attempt persist (they are cleared only by a successful
`handleFinishCalibration`). -/
theorem toggle_calibration_amended (s : ARState) :
    (toggleCalibration s).isCalibrating = !s.isCalibrating ∧
    (toggleCalibration s).calibrationPoints = s.calibrationPoints :=
  ⟨rfl, rfl⟩

/-- Counterexample to C3 as stated: on an open sequence with exactly one
vertex the source's `stats` returns perimeter 0 (its early return below 2
vertices), while the spec's formula gives the live distance from that
vertex to the center (here 5). -/
theorem stats_perimeter_counterexample :
    (stats [⟨0, 0⟩] false ⟨3, 4⟩ 1).2 = 0 ∧
    specPerimeterPx [⟨0, 0⟩] false ⟨3, 4⟩ = 5 := by
  constructor
  · simp [stats]
  · simp only [specPerimeterPx]
    simp [calculatePixelDistance]
    rw [show (3:ℝ) * 3 + 4 * 4 = 5 ^ 2 by norm_num]
    exact Real.sqrt_sq (by norm_num)

/-- C3 amended: the second component of `stats` (the perimeter in real
units) equals the spec's pixel perimeter — cyclic edge sum when closed,
open-chain sum plus the live edge when open — divided by the scale,
provided the sequence is closed or does not have exactly one vertex; an
open single-vertex sequence instead yields 0 (the early return of `stats`
below 2 vertices). -/
theorem stats_perimeter_amended (points : List Point) (closed : Bool)
    (center : Point) (ppf : ℝ) (h : closed = true ∨ points.length ≠ 1) :
    (stats points closed center ppf).2 = specPerimeterPx points closed center / ppf := by
  by_cases hlen : points.length < 2
  · rcases points with _ | ⟨p, rest⟩
    · cases closed <;> simp [stats, specPerimeterPx]
    · rcases rest with _ | ⟨q, rest2⟩
      · cases closed with
        | true => simp [stats, specPerimeterPx, calculatePixelDistance_self]
        | false => simp at h
      · simp at hlen; omega
  · have hpos : 0 < points.length := by omega
    cases closed with
    | true => simp [stats, hlen, specPerimeterPx]
    | false =>
      simp [stats, hlen, specPerimeterPx, hpos]
      congr 1
      congr 1
      refine Finset.sum_congr rfl ?_
      intro i hi
      have hi' : i < points.length - 1 := Finset.mem_range.mp hi
      rw [Nat.mod_eq_of_lt (by omega)]

/-- Witness for the amended C3 at a concrete open two-vertex state. -/
theorem stats_perimeter_amended_witness :
    ([⟨0, 0⟩, ⟨3, 4⟩] : List Point).length ≠ 1 ∧
    (stats [⟨0, 0⟩, ⟨3, 4⟩] false ⟨6, 8⟩ 2).2
      = specPerimeterPx [⟨0, 0⟩, ⟨3, 4⟩] false ⟨6, 8⟩ / 2 :=
  ⟨by simp, stats_perimeter_amended [⟨0, 0⟩, ⟨3, 4⟩] false ⟨6, 8⟩ 2 (Or.inr (by simp))⟩

/-- C9: `handleUndo` on a closed polygon only reopens it (all vertices
intact); on an open non-empty sequence it removes exactly the last vertex;
on an open empty sequence it is a no-op.  Consequently close / undo /
close-again (with the target again within 30px of the first vertex)
restores the very same state, hence the identical `stats` area and
perimeter. -/
theorem undo_spec (s : ARState) (target center : Point) (ppf : ℝ) :
    (s.isClosed = true → handleUndo s = { s with isClosed := false }) ∧
    (s.isClosed = false → ∀ ps p, s.points = ps ++ [p] →
      handleUndo s = { s with points := ps }) ∧
    (s.isClosed = false → s.points = [] → handleUndo s = s) ∧
    (s.isClosed = true → s.isCalibrating = false → 3 ≤ s.points.length →
      calculatePixelDistance target s.points.headI < 30 →
      handleCapturePoint (handleUndo s) target = s ∧
      stats (handleCapturePoint (handleUndo s) target).points
          (handleCapturePoint (handleUndo s) target).isClosed center ppf
        = stats s.points s.isClosed center ppf) := by
  obtain ⟨pts, cl, cal, cps, ppfS, modal⟩ := s
  refine ⟨?_, ?_, ?_, ?_⟩
  · intro h
    simp only at h
    simp [handleUndo, h]
  · intro h ps p hp
    simp only at h hp
    simp [handleUndo, h, hp, List.dropLast_concat]
  · intro h he
    simp only at h he
    simp [handleUndo, h, he]
  · intro h1 h2 h3 h4
    simp only at h1 h2 h3 h4
    subst h1; subst h2
    have hu : handleUndo ⟨pts, true, false, cps, ppfS, modal⟩
        = ⟨pts, false, false, cps, ppfS, modal⟩ := by simp [handleUndo]
    rw [hu]
    have hc : handleCapturePoint ⟨pts, false, false, cps, ppfS, modal⟩ target
        = ⟨pts, true, false, cps, ppfS, modal⟩ := by
      simp [handleCapturePoint, h3, h4]
    rw [hc]
    exact ⟨rfl, rfl⟩

/-- Witness for C9: a concrete closed triangle is reopened by undo with all
vertices intact, and re-capturing near the first vertex restores exactly
the original closed state. -/
theorem undo_spec_witness :
    handleUndo ⟨[⟨0, 0⟩, ⟨40, 0⟩, ⟨40, 40⟩], true, false, [], 35, false⟩
      = ⟨[⟨0, 0⟩, ⟨40, 0⟩, ⟨40, 40⟩], false, false, [], 35, false⟩ ∧
    handleCapturePoint
        (handleUndo ⟨[⟨0, 0⟩, ⟨40, 0⟩, ⟨40, 40⟩], true, false, [], 35, false⟩) ⟨2, 2⟩
      = ⟨[⟨0, 0⟩, ⟨40, 0⟩, ⟨40, 40⟩], true, false, [], 35, false⟩ := by
  have hd : calculatePixelDistance ⟨2, 2⟩
      (([⟨0, 0⟩, ⟨40, 0⟩, ⟨40, 40⟩] : List Point).headI) < 30 := by
    show Real.sqrt _ < 30
    rw [Real.sqrt_lt' (by norm_num)]
    norm_num [origin]
  have h := undo_spec ⟨[⟨0, 0⟩, ⟨40, 0⟩, ⟨40, 40⟩], true, false, [], 35, false⟩
    ⟨2, 2⟩ ⟨5, 5⟩ 35
  exact ⟨h.1 rfl, (h.2.2.2 rfl rfl (by norm_num) hd).1⟩

/-- Counterexample to C4 as stated: with a single reference point and a
valid real distance the source call is not a state-preserving no-op —
`calibrationPoints[1]` is `undefined`, the distance computation throws a
`TypeError` (`none` in this model), and the no-op result `some s` is not
produced. -/
theorem finish_calibration_counterexample :
    handleFinishCalibration ⟨[], false, true, [⟨0, 0⟩], 35, false⟩ 10 = none ∧
    handleFinishCalibration ⟨[], false, true, [⟨0, 0⟩], 35, false⟩ 10
      ≠ some ⟨[], false, true, [⟨0, 0⟩], 35, false⟩ := by
  constructor
  · rfl
  · simp [handleFinishCalibration]

/-- C4 amended: with fewer than 2 reference points `handleFinishCalibration`
throws a `TypeError` (`none`) instead of performing a guarded no-op; with at
least 2 reference points it returns normally — the unchanged state
(calibration still open) when the real distance or the pixel distance
between the first two reference points is non-positive, and otherwise the
state with scale = pixel distance / real distance, calibration mode exited,
reference points and modal cleared, and the in-progress polygon cleared. -/
theorem finish_calibration_amended (s : ARState) (d : ℝ) :
    (s.calibrationPoints.length < 2 → handleFinishCalibration s d = none) ∧
    (2 ≤ s.calibrationPoints.length →
      (d ≤ 0 ∨ calculatePixelDistance (s.calibrationPoints.getD 0 origin)
          (s.calibrationPoints.getD 1 origin) ≤ 0 →
        handleFinishCalibration s d = some s) ∧
      (0 < d → 0 < calculatePixelDistance (s.calibrationPoints.getD 0 origin)
          (s.calibrationPoints.getD 1 origin) →
        handleFinishCalibration s d =
          some { s with
              pixelsPerFoot :=
                calculatePixelDistance (s.calibrationPoints.getD 0 origin)
                  (s.calibrationPoints.getD 1 origin) / d,
              isCalibrating := false,
              calibrationPoints := [],
              showCalibrationModal := false,
              points := [],
              isClosed := false })) := by
  obtain ⟨pts, cl, cal, cps, ppfS, modal⟩ := s
  rcases cps with _ | ⟨p0, _ | ⟨p1, rest⟩⟩
  · exact ⟨fun _ => rfl, fun h2 => by simp at h2⟩
  · exact ⟨fun _ => rfl, fun h2 => by simp at h2⟩
  · refine ⟨fun h1 => ?_, fun _ => ⟨?_, ?_⟩⟩
    · simp at h1
      omega
    · intro h
      simp only [List.getD] at h
      simp only [handleFinishCalibration]
      rw [if_neg]
      rintro ⟨hd, hpx⟩
      rcases h with h | h
      · linarith
      · simp at h
        linarith
    · intro h1 h3
      simp only [List.getD] at h3
      simp only [handleFinishCalibration]
      rw [if_pos ⟨h1, by simpa using h3⟩]
      simp [List.getD]

/-- Witness for the amended C4: reference points 100 pixels apart and a
real distance of 10 yield scale 10, exit calibration, and clear reference
points, modal and the in-progress polygon. -/
theorem finish_calibration_amended_witness :
    2 ≤ ([⟨0, 0⟩, ⟨100, 0⟩] : List Point).length ∧ (0:ℝ) < 10 ∧
    handleFinishCalibration ⟨[⟨9, 9⟩], true, true, [⟨0, 0⟩, ⟨100, 0⟩], 35, true⟩ 10
      = some ⟨[], false, false, [], 10, false⟩ := by
  have hdist : calculatePixelDistance (⟨0, 0⟩ : Point) ⟨100, 0⟩ = 100 := by
    show Real.sqrt _ = 100
    rw [show ((0:ℝ) - 100) * ((0:ℝ) - 100) + ((0:ℝ) - 0) * ((0:ℝ) - 0) = 100 ^ 2 by norm_num]
    exact Real.sqrt_sq (by norm_num)
  have h := ((finish_calibration_amended
      ⟨[⟨9, 9⟩], true, true, [⟨0, 0⟩, ⟨100, 0⟩], 35, true⟩ 10).2
    (by simp)).2 (by norm_num) (by simp [List.getD, hdist])
  refine ⟨by simp, by norm_num, ?_⟩
  rw [h]
  simp [List.getD, hdist]
  norm_num

/-- C5: for non-negative area and perimeter, the rectangle back-solve with
semi-perimeter `s = perimeter/2` and discriminant `D = s² − 4·area` returns
the sides `(s + √D)/2` and `(s − √D)/2` with the larger as length and the
smaller as width when `D ≥ 0`, and falls back to the square `(√area, √area)`
when `D < 0`. -/
theorem solve_rect_dims_spec (area perimeter : ℝ) (_ha : 0 ≤ area)
    (_hp : 0 ≤ perimeter) :
    (0 ≤ (perimeter / 2) ^ 2 - 4 * area →
      solveRectDims area perimeter
        = ((perimeter / 2 + Real.sqrt ((perimeter / 2) ^ 2 - 4 * area)) / 2,
           (perimeter / 2 - Real.sqrt ((perimeter / 2) ^ 2 - 4 * area)) / 2) ∧
      (solveRectDims area perimeter).2 ≤ (solveRectDims area perimeter).1) ∧
    ((perimeter / 2) ^ 2 - 4 * area < 0 →
      solveRectDims area perimeter = (Real.sqrt area, Real.sqrt area)) := by
  constructor
  · intro hD
    have hs : 0 ≤ Real.sqrt ((perimeter / 2) ^ 2 - 4 * area) := Real.sqrt_nonneg _
    have hle : (perimeter / 2 - Real.sqrt ((perimeter / 2) ^ 2 - 4 * area)) / 2
        ≤ (perimeter / 2 + Real.sqrt ((perimeter / 2) ^ 2 - 4 * area)) / 2 := by
      linarith
    have h1 : solveRectDims area perimeter
        = ((perimeter / 2 + Real.sqrt ((perimeter / 2) ^ 2 - 4 * area)) / 2,
           (perimeter / 2 - Real.sqrt ((perimeter / 2) ^ 2 - 4 * area)) / 2) := by
      simp only [solveRectDims]
      rw [if_pos hD, max_eq_left hle, min_eq_right hle]
    exact ⟨h1, by rw [h1]; exact hle⟩
  · intro hD
    simp only [solveRectDims]
    rw [if_neg (not_le.mpr hD)]

/-- Witness for C5 at area 2, perimeter 12: the discriminant is 28 ≥ 0 and
the two roots are returned. -/
theorem solve_rect_dims_spec_witness :
    (0:ℝ) ≤ 2 ∧ (0:ℝ) ≤ 12 ∧ (0:ℝ) ≤ ((12:ℝ) / 2) ^ 2 - 4 * 2 ∧
    solveRectDims 2 12
      = (((12:ℝ) / 2 + Real.sqrt (((12:ℝ) / 2) ^ 2 - 4 * 2)) / 2,
         ((12:ℝ) / 2 - Real.sqrt (((12:ℝ) / 2) ^ 2 - 4 * 2)) / 2) :=
  ⟨by norm_num, by norm_num, by norm_num,
    ((solve_rect_dims_spec 2 12 (by norm_num) (by norm_num)).1 (by norm_num)).1⟩

/-- Counterexample to C6 as stated: for area 50, perimeter 60 the
discriminant is 700, not negative, and the returned length is not the
square fallback `√50`. -/
theorem rect_backsolve_counterexample :
    ¬ (((60:ℝ) / 2) ^ 2 - 4 * 50 < 0) ∧ (solveRectDims 50 60).1 ≠ Real.sqrt 50 := by
  constructor
  · norm_num
  · have hle : ((60:ℝ) / 2 - Real.sqrt (((60:ℝ) / 2) ^ 2 - 4 * 50)) / 2
        ≤ ((60:ℝ) / 2 + Real.sqrt (((60:ℝ) / 2) ^ 2 - 4 * 50)) / 2 := by
      have := Real.sqrt_nonneg (((60:ℝ) / 2) ^ 2 - 4 * 50)
      linarith
    have h1 : (solveRectDims 50 60).1
        = ((60:ℝ) / 2 + Real.sqrt (((60:ℝ) / 2) ^ 2 - 4 * 50)) / 2 := by
      simp only [solveRectDims]
      rw [if_pos (by norm_num), max_eq_left hle]
    rw [h1]
    have hs : 0 ≤ Real.sqrt (((60:ℝ) / 2) ^ 2 - 4 * 50) := Real.sqrt_nonneg _
    have h50 : Real.sqrt 50 < 8 := by
      rw [Real.sqrt_lt' (by norm_num)]
      norm_num
    intro heq
    rw [← heq] at h50
    linarith

/-- C6 amended: area 100 and perimeter 40 give sides 10 and 10
(discriminant exactly 0); area 50 and perimeter 60 give discriminant 700
(positive, so no square fallback) and sides `(30 ± √700)/2`. -/
theorem rect_backsolve_examples_amended :
    solveRectDims 100 40 = (10, 10) ∧
    ((60:ℝ) / 2) ^ 2 - 4 * 50 = 700 ∧
    solveRectDims 50 60 = ((30 + Real.sqrt 700) / 2, (30 - Real.sqrt 700) / 2) := by
  refine ⟨?_, by norm_num, ?_⟩
  · have h0 : ((40:ℝ) / 2) ^ 2 - 4 * 100 = 0 := by norm_num
    simp only [solveRectDims]
    rw [if_pos (le_of_eq h0.symm), h0, Real.sqrt_zero]
    norm_num
  · have h700 : ((60:ℝ) / 2) ^ 2 - 4 * 50 = 700 := by norm_num
    have hle : ((60:ℝ) / 2 - Real.sqrt 700) / 2 ≤ ((60:ℝ) / 2 + Real.sqrt 700) / 2 := by
      have := Real.sqrt_nonneg (700:ℝ)
      linarith
    simp only [solveRectDims]
    rw [h700, if_pos (by norm_num), max_eq_left hle, min_eq_right hle]
    norm_num

/-- Auxiliary characterisation of the stability-detector scenario trace:
after the magnitude-0.9 motion sample at time `T`, progress stays 0 through
the tick at `T + 400`, climbs by 8 from the tick at `T + 450` (tick 9) up
to 96 at tick 20, and tick 21 (time `T + 1050`) caps it at 100, fires the
single capture trigger and enters cooldown, after which every further tick
of the trace leaves the state unchanged. -/
theorem scanTrace_eq (T : ℤ) (s₀ : ScanState) (h : s₀.cooldown = false) (k : ℕ) :
    scanTrace T s₀ k =
      if k ≤ 8 then ⟨0, false, T, s₀.captures⟩
      else if k ≤ 20 then ⟨8 * (k - 8), false, T, s₀.captures⟩
      else ⟨100, true, T, s₀.captures + 1⟩ := by
  obtain ⟨v, cd, lm, cap⟩ := s₀
  simp only at h
  subst h
  induction k with
  | zero =>
      simp [scanTrace, handleMotion, show (4:ℚ) / 5 < 9 / 10 by norm_num]
  | succ k ih =>
      rw [scanTrace, ih]
      by_cases h1 : k + 1 ≤ 8
      · have hk : k ≤ 8 := by omega
        rw [if_pos hk, if_pos h1]
        have hcond : ¬ (400 : ℤ) < T + 50 * ((k : ℤ) + 1) - T := by omega
        simp [scanTick, hcond]
        omega
      · by_cases h2 : k + 1 ≤ 20
        · have hprev : (if k ≤ 8 then (⟨0, false, T, cap⟩ : ScanState)
              else if k ≤ 20 then ⟨8 * (k - 8), false, T, cap⟩
              else ⟨100, true, T, cap + 1⟩) = ⟨8 * (k - 8), false, T, cap⟩ := by
            by_cases hk : k ≤ 8
            · have hk8 : k = 8 := by omega
              subst hk8
              norm_num
            · rw [if_neg hk, if_pos (by omega)]
          rw [hprev, if_neg h1, if_pos h2]
          have hnext : ¬ 100 ≤ 8 * (k - 8) + 8 := by omega
          simp [scanTick, hnext]
          rw [if_pos (show (400:ℤ) < 50 * ((k : ℤ) + 1) by omega)]
          have h8 : 8 * (k - 8) + 8 = 8 * (k - 7) := by omega
          rw [h8]
        · by_cases h3 : k ≤ 20
          · have hk : k = 20 := by omega
            subst hk
            have hcond : (400 : ℤ) < T + 50 * ((20 : ℤ) + 1) - T := by omega
            norm_num [scanTick, hcond]
          · rw [if_neg h3, if_neg (by omega), if_neg h1, if_neg h2]
            simp [scanTick]

/-- C8: in the tick/sample system, after a motion sample of magnitude 0.9 at
time `T` with no further motion, progress is 0 at every tick up to `T + 400`,
first becomes nonzero at tick 9 — the first tick after `T + 400` —, reaches
100 at tick 21 (time `T + 1050`, within one tick period of `T + 1025`), at
which moment exactly one capture trigger fires, and no additional trigger
fires at any tick of the following 1500-unit cooldown window. -/
theorem stability_detector_spec (T : ℤ) (s₀ : ScanState)
    (h : s₀.cooldown = false) :
    (∀ k : ℕ, T + 50 * k ≤ T + 400 → (scanTrace T s₀ k).scanProgress = 0) ∧
    ((scanTrace T s₀ 9).scanProgress ≠ 0 ∧ T + 400 < T + 50 * 9 ∧
      (∀ k : ℕ, T + 400 < T + 50 * k → 9 ≤ k)) ∧
    ((scanTrace T s₀ 20).scanProgress < 100 ∧
      (scanTrace T s₀ 21).scanProgress = 100 ∧
      (scanTrace T s₀ 20).captures = s₀.captures ∧
      (scanTrace T s₀ 21).captures = s₀.captures + 1 ∧
      |(T + 50 * 21) - (T + 1025)| ≤ 25) ∧
    (∀ k : ℕ, 21 ≤ k → T + 50 * k < (T + 50 * 21) + 1500 →
      (scanTrace T s₀ k).captures = s₀.captures + 1) := by
  refine ⟨?_, ⟨?_, by omega, fun k hk => by omega⟩, ⟨?_, ?_, ?_, ?_, ?_⟩, ?_⟩
  · intro k hk
    have hk8 : k ≤ 8 := by omega
    rw [scanTrace_eq T s₀ h k, if_pos hk8]
  · rw [scanTrace_eq T s₀ h 9]
    norm_num
  · rw [scanTrace_eq T s₀ h 20]
    norm_num
  · rw [scanTrace_eq T s₀ h 21]
    norm_num
  · rw [scanTrace_eq T s₀ h 20]
    norm_num
  · rw [scanTrace_eq T s₀ h 21]
    norm_num
  · rw [show (T + 50 * 21) - (T + 1025) = 25 by ring]
    norm_num
  · intro k hk _
    rw [scanTrace_eq T s₀ h k, if_neg (by omega), if_neg (by omega)]

/-- Witness for C8 at the concrete start state `⟨0, false, 0, 0⟩` and
`T = 0`: the trigger count after tick 21 is exactly 1. -/
theorem stability_detector_witness :
    (⟨0, false, 0, 0⟩ : ScanState).cooldown = false ∧
    (scanTrace 0 ⟨0, false, 0, 0⟩ 21).captures
      = (⟨0, false, 0, 0⟩ : ScanState).captures + 1 :=
  ⟨rfl, (stability_detector_spec 0 ⟨0, false, 0, 0⟩ rfl).2.2.2 21 (by norm_num)
    (by norm_num)⟩

end LevelUp

end
